import Mathlib

/-!
Verification of the gossip node of `wwiras/adaptiveBC`
(`src/simcl2/node_asyncio.py`) against its natural-language specification.

The node is shallowly embedded: its mutable state (`susceptible_nodes`,
`received_message_ids`, semaphore) becomes an explicit `NodeState`, the two
RPC handlers (`SendMessage`, `UpdateNeighbors`) become pure state-passing
functions, Python exceptions become `Except String`, and the asyncio
semaphore discipline of the relay engine becomes a small-step transition
system.  Times are modelled as rationals (nanoseconds), weights as rationals
(milliseconds), matching Python floats and `time.time_ns()`.
-/

namespace AdaptiveBC

/-- Source constant `MAX_CONCURRENT_SENDS = 125` in `node_asyncio.py`. -/
def MAX_CONCURRENT_SENDS : Nat := 125

/-- Python `int()` on a rational: truncation toward zero. -/
def pyInt (q : ℚ) : ℤ := if 0 ≤ q then ⌊q⌋ else ⌈q⌉

/-- The gRPC `GossipMessage` request of `SendMessage`
(fields `message`, `sender_id`, `timestamp`, `latency_ms`, `round_count`). -/
structure GossipMessage where
  message : String
  sender_id : String
  timestamp : ℚ
  latency_ms : ℚ
  round_count : Nat
deriving DecidableEq, Repr

/-- The gRPC `Acknowledgment` reply (single field `details`). -/
structure Acknowledgment where
  details : String
deriving DecidableEq, Repr

/-- The mutable state that a `Node` instance owns:
`susceptible_nodes` (the neighbor table, a list of `(pod_ip, weight)` pairs),
`received_message_ids` (the dedup set), plus the node identity read at
construction.  The asyncio semaphore is modelled separately by the
relay-engine transition system below, since it only constrains scheduling. -/
structure NodeState where
  hostname : String
  host : String
  susceptible_nodes : List (String × ℚ)
  received_message_ids : Finset String
deriving DecidableEq

/-- The event kinds emitted by `_log_event`. -/
inductive EventKind where
  | initiate
  | received
  | duplicate
deriving DecidableEq, Repr

/-- One structured log record emitted by `_log_event` (the free-text
`detail` field, built with `time.strftime` and f-string formatting, is
elided: it is locale/wall-clock dependent and no claim depends on it). -/
structure GossipEvent where
  message : String
  sender_id : String
  receiver_id : String
  received_timestamp : ℚ
  propagation_time : Option ℚ
  incoming_link_latency : Option ℚ
  round_count : Nat
  event_type : EventKind
deriving DecidableEq, Repr

/-- The arguments of a detached `gossip_message` task created by
`asyncio.create_task(self.gossip_message(message, sender_id, round))`. -/
structure FanOut where
  message : String
  sender_id : String
  round_count : Nat
deriving DecidableEq, Repr

/-- The full effect of one `SendMessage` call: the state after the call,
the returned `Acknowledgment`, the log event emitted, and the fan-out task
scheduled (`none` when no `create_task` happens). -/
structure SendResult where
  state : NodeState
  ack : Acknowledgment
  event : GossipEvent
  fanout : Option FanOut
deriving DecidableEq

/-- Model of `Node._log_event(...)` restricted to the structured fields (the
free-text `log_message` argument is elided, see `GossipEvent`).  Arguments
are in the source's positional order. -/
def logEvent (host : String) (message : String) (sender_id : String)
    (received_timestamp : ℚ) (propagation_time : Option ℚ)
    (incoming_link_latency : Option ℚ) (event_type : EventKind)
    (round_count : Nat) : GossipEvent :=
  ⟨message, sender_id, host, received_timestamp, propagation_time,
    incoming_link_latency, round_count, event_type⟩

/-- Model of `Node.SendMessage(request, context)`.  `received_timestamp` is the value
of `time.time_ns()` taken at the top of the handler, passed explicitly. -/
def sendMessage (st : NodeState) (request : GossipMessage)
    (received_timestamp : ℚ) : SendResult :=
  let message := request.message
  let sender_id := request.sender_id
  let incoming_link_latency := request.latency_ms
  let incoming_round_count := request.round_count
  -- Case 1: Initial message (node sending to itself to start gossip)
  if sender_id = st.host then
    ⟨{ st with received_message_ids := insert message st.received_message_ids },
      ⟨"Done propagate! " ++ st.host ++ " received: \x27" ++ message ++ "\x27"⟩,
      logEvent st.host message sender_id received_timestamp none none
        .initiate 0,
      some ⟨message, sender_id, 0⟩⟩
  -- Case 2: Duplicate message
  else if message ∈ st.received_message_ids then
    ⟨st,
      ⟨"Duplicate message ignored by (" ++ st.host ++ ")"⟩,
      logEvent st.host message sender_id received_timestamp none
        (some incoming_link_latency) .duplicate incoming_round_count,
      none⟩
  -- Case 3: New message
  else
    let propagation_time := (received_timestamp - request.timestamp) / 1000000
    ⟨{ st with received_message_ids := insert message st.received_message_ids },
      ⟨st.host ++ " received: \x27" ++ message ++ "\x27"⟩,
      logEvent st.host message sender_id received_timestamp
        (some propagation_time) (some incoming_link_latency) .received
        incoming_round_count,
      some ⟨message, sender_id, incoming_round_count + 1⟩⟩

/-- The peers that `Node.gossip_message(message, sender_id, round_count)`
schedules `_send_gossip_to_peer` tasks for: every `(peer_ip, peer_weight)`
in `susceptible_nodes` with `peer_ip != sender_id`. -/
def gossipTargets (susceptible_nodes : List (String × ℚ))
    (sender_id : String) : List (String × ℚ) :=
  susceptible_nodes.filter (fun p => p.1 ≠ sender_id)

/-- Outcome of the sqlite layer viewed as an environment input: the write
can fail for external reasons (disk error, locked database, ...)
independently of the data written. -/
inductive DbOutcome where
  | ok
  | fail (msg : String)
deriving DecidableEq, Repr

/-- Result of the durable-store transaction in `UpdateNeighbors`.  An
environmental failure (`sqlite3.connect`, disk error) surfaces first: it
occurs before — or instead of — the `executemany INSERT`, so its message is
the one raised.  With a healthy environment, the transaction runs
`CREATE TABLE NEIGHBORS (pod_ip TEXT PRIMARY KEY, weight REAL)` and then
the inserts, where a duplicate `pod_ip` violates the primary-key
constraint and raises `sqlite3.IntegrityError`; no other validation
happens — in particular `weight REAL` accepts any number. -/
def dbWriteResult (edges : List (String × ℚ)) (ext : DbOutcome) : DbOutcome :=
  match ext with
  | .fail m => .fail m
  | .ok =>
      if (edges.map Prod.fst).Nodup then .ok
      else .fail "UNIQUE constraint failed: NEIGHBORS.pod_ip"

/-- Model of `Node.UpdateNeighbors(request, context)`.  State threading follows the
source order: `self.susceptible_nodes` is assigned and
`self.received_message_ids.clear()` runs first, then the sqlite write is
attempted inside `with sqlite3.connect(...)` (which rolls the durable table
back on an exception).  The surrounding `try/except` turns any exception
into an error `Acknowledgment`.  Returns (state after the call, durable
NEIGHBORS table after the call, acknowledgment). -/
def updateNeighbors (st : NodeState) (db : List (String × ℚ))
    (neighbors : List (String × ℚ)) (ext : DbOutcome) :
    NodeState × List (String × ℚ) × Acknowledgment :=
  let st1 : NodeState := { st with susceptible_nodes := neighbors,
                                   received_message_ids := ∅ }
  match dbWriteResult neighbors ext with
  | .ok => (st1, neighbors,
      ⟨"Neighbors list and message cache have been updated."⟩)
  | .fail e => (st1, db, ⟨"Error: " ++ e⟩)

/-- A sequence of `SendMessage` calls against one node (each paired with
the `time.time_ns()` value observed at its start), run in order.  Models a
sequence of deliveries within one epoch. -/
def runCalls (st : NodeState) :
    List (GossipMessage × ℚ) → NodeState × List SendResult
  | [] => (st, [])
  | c :: rest =>
      let r := sendMessage st c.1 c.2
      let tail := runCalls r.state rest
      (tail.1, r :: tail.2)

/-! ### The relay task `_send_gossip_to_peer` -/

/-- Timed trace of one `_send_gossip_to_peer(message, sender_id, peer_ip,
peer_weight, round_count)` task.  `send_timestamp = time.time_ns()` is
taken before the semaphore is acquired; the task then sleeps
`int(peer_weight) / 1000` seconds and issues the outbound
`stub.SendMessage`.  Times are in nanoseconds; `slotWaitNs` is how long
the task waited for a semaphore slot (environment-determined). -/
structure RelayTrace where
  peer : String
  sleptMs : ℚ
  sent : GossipMessage
  sendTime : ℚ
deriving DecidableEq, Repr

/-- The deterministic effects of `_send_gossip_to_peer` (timing and the
outbound request), given the task start time and the semaphore wait. -/
def sendGossipToPeer (host : String) (message : String)
    (peer_ip : String) (peer_weight : ℚ) (round_count : Nat)
    (taskStart : ℚ) (slotWaitNs : ℚ) : RelayTrace :=
  let send_timestamp := taskStart
  let sleptMs : ℚ := ((pyInt peer_weight : ℤ) : ℚ)
  { peer := peer_ip,
    sleptMs := sleptMs,
    sent := ⟨message, host, send_timestamp, peer_weight, round_count⟩,
    sendTime := taskStart + slotWaitNs + sleptMs * 1000000 }

/-- Outcome of the outbound gRPC call, an environment input: the await of
`stub.SendMessage` either completes or raises an exception
(timeout, connection refused, ...). -/
inductive CallOutcome where
  | success
  | raise (err : String)
deriving DecidableEq, Repr

/-- The body of the `try:` block of `_send_gossip_to_peer`, as a fallible
computation: it returns normally iff the outbound call does. -/
def relayBody (outcome : CallOutcome) : Except String Unit :=
  match outcome with
  | .success => .ok ()
  | .raise e => .error e

/-- Python `try: body except Exception as e: print(log(e))`: a normal
return passes through; an exception is converted into a logged line and a
normal return.  The result is `.ok` with the optional log line; `.error`
would mean an exception escaped the handler. -/
def pyTryExceptLog (body : Except String Unit)
    (logLine : String → String) : Except String (Option String) :=
  match body with
  | .ok _ => .ok none
  | .error e => .ok (some (logLine e))

/-- Running one `_send_gossip_to_peer` coroutine to completion: the whole
body sits under `try/except Exception`, which logs
`"Failed to send message: ..."` and swallows the exception. -/
def relayTaskRun (message : String) (peer_ip : String)
    (outcome : CallOutcome) : Except String (Option String) :=
  pyTryExceptLog (relayBody outcome)
    (fun e => "Failed to send message: \x27" ++ message ++ "\x27 to " ++
      peer_ip ++ ": " ++ e)

/-- Model of `Node.gossip_message`: one relay task per target peer, joined by
`asyncio.gather(*tasks, return_exceptions=True)` — per-task results
(including would-be exceptions) are collected as values, so the gather
itself always returns normally. -/
def gossipMessageRun (susceptible_nodes : List (String × ℚ))
    (sender_id : String) (message : String)
    (outcomes : String → CallOutcome) :
    Except String (List (Except String (Option String))) :=
  .ok ((gossipTargets susceptible_nodes sender_id).map
    (fun p => relayTaskRun message p.1 (outcomes p.1)))

/-! ### The semaphore-bounded relay engine

`_send_gossip_to_peer` wraps its delay and outbound call in
`async with self.semaphore` where `semaphore = asyncio.Semaphore(125)`.
The cooperative scheduling of relay tasks is modelled as a transition
system over task-phase counts: a task is spawned, waits for a slot,
holds the slot while it sleeps (`delaying`) and while its outbound call is
in flight (`calling`), and releases the slot when the call finishes.
`available` is the semaphore's internal counter. -/

structure EngineState where
  available : Nat
  waiting : Nat
  delaying : Nat
  calling : Nat
  completed : Nat
deriving DecidableEq, Repr

/-- Engine state at node construction: `asyncio.Semaphore(MAX_CONCURRENT_SENDS)`
full, no relay tasks. -/
def engineInit : EngineState :=
  ⟨MAX_CONCURRENT_SENDS, 0, 0, 0, 0⟩

/-- One scheduler step of the relay engine. `acquire` needs a free slot
(`asyncio.Semaphore` blocks at zero); `finishCall` releases the slot at the
end of the `async with` block, whether the call succeeded or raised. -/
inductive EngineStep : EngineState → EngineState → Prop
  | spawn (s : EngineState) :
      EngineStep s ⟨s.available, s.waiting + 1, s.delaying, s.calling, s.completed⟩
  | acquire (s : EngineState) (ha : 0 < s.available) (hw : 0 < s.waiting) :
      EngineStep s ⟨s.available - 1, s.waiting - 1, s.delaying + 1, s.calling, s.completed⟩
  | beginCall (s : EngineState) (hd : 0 < s.delaying) :
      EngineStep s ⟨s.available, s.waiting, s.delaying - 1, s.calling + 1, s.completed⟩
  | finishCall (s : EngineState) (hc : 0 < s.calling) :
      EngineStep s ⟨s.available + 1, s.waiting, s.delaying, s.calling - 1, s.completed + 1⟩

/-- States the relay engine can reach from node construction. -/
def EngineReachable (s : EngineState) : Prop :=
  Relation.ReflTransGen EngineStep engineInit s

/-! ### Concrete fixtures used by witnesses and counterexamples -/

/-- A node `n1` at `10.0.0.1` with two neighbors and an empty dedup set. -/
def exNode : NodeState :=
  ⟨"n1", "10.0.0.1", [("10.0.0.2", 10), ("10.0.0.3", 20)], ∅⟩

/-- The same node after having seen message `m1`. -/
def exNodeSeen : NodeState :=
  ⟨"n1", "10.0.0.1", [("10.0.0.2", 10), ("10.0.0.3", 20)], {"m1"}⟩

/-- A delivery of `m1` arriving from peer `10.0.0.2`. -/
def exPeerReq : GossipMessage := ⟨"m1", "10.0.0.2", 0, 10, 0⟩

/-- A self-addressed delivery of `m1` (broadcast trigger). -/
def exSelfReq : GossipMessage := ⟨"m1", "10.0.0.1", 0, 0, 0⟩

/-! ### Helper lemmas about `sendMessage` -/

theorem sendMessage_host (st : NodeState) (request : GossipMessage) (t : ℚ) :
    (sendMessage st request t).state.host = st.host := by
  by_cases h1 : request.sender_id = st.host
  · simp [sendMessage, h1]
  · by_cases h2 : request.message ∈ st.received_message_ids <;>
      simp [sendMessage, h1, h2]

theorem sendMessage_susceptible (st : NodeState) (request : GossipMessage)
    (t : ℚ) :
    (sendMessage st request t).state.susceptible_nodes =
      st.susceptible_nodes := by
  by_cases h1 : request.sender_id = st.host
  · simp [sendMessage, h1]
  · by_cases h2 : request.message ∈ st.received_message_ids <;>
      simp [sendMessage, h1, h2]

theorem sendMessage_marks (st : NodeState) (request : GossipMessage)
    (t : ℚ) :
    request.message ∈ (sendMessage st request t).state.received_message_ids := by
  by_cases h1 : request.sender_id = st.host
  · simp [sendMessage, h1]
  · by_cases h2 : request.message ∈ st.received_message_ids <;>
      simp [sendMessage, h1, h2]

/-- The Case 2 branch of `SendMessage` in one equation. -/
theorem sendMessage_dup (st : NodeState) (request : GossipMessage) (t : ℚ)
    (h1 : request.sender_id ≠ st.host)
    (h2 : request.message ∈ st.received_message_ids) :
    sendMessage st request t =
      ⟨st, ⟨"Duplicate message ignored by (" ++ st.host ++ ")"⟩,
        logEvent st.host request.message request.sender_id t none
          (some request.latency_ms) .duplicate request.round_count,
        none⟩ := by
  simp [sendMessage, h1, h2]

/-- All results of a run consisting solely of peer deliveries of an
already-seen id are duplicate events without fan-out. -/
theorem runCalls_duplicates (id : String) :
    ∀ (calls : List (GossipMessage × ℚ)) (st : NodeState),
      id ∈ st.received_message_ids →
      (∀ c ∈ calls, c.1.message = id ∧ c.1.sender_id ≠ st.host) →
      ∀ x ∈ (runCalls st calls).2,
        x.event.event_type = .duplicate ∧ x.fanout = none := by
  intro calls
  induction calls with
  | nil => intro st _ _ x hx; simp [runCalls] at hx
  | cons c cs ih =>
    intro st hid hall x hx
    obtain ⟨hmsg, hsender⟩ := hall c (by simp)
    have hdup := sendMessage_dup st c.1 c.2 hsender (hmsg ▸ hid)
    simp only [runCalls, hdup, List.mem_cons] at hx
    rcases hx with hx | hx
    · subst hx; exact ⟨rfl, rfl⟩
    · exact ih st hid (fun d hd => hall d (List.mem_cons_of_mem _ hd)) x hx

/-! ### Claims about `SendMessage` -/

/-- Claim C1: `SendMessage` branches exactly as specified: a self-addressed
delivery marks the id seen, logs `initiate`, schedules fan-out at round 0
and acks; a delivery of an already-seen id from a peer logs `duplicate`,
schedules no fan-out and acks the duplicate; a fresh delivery from a peer
marks the id seen, records `propagation_time = received_at - sent_at`
(converted from nanoseconds to milliseconds), logs `received` at the
incoming round, schedules fan-out at the incoming round plus one, and acks
acceptance. -/
theorem sendMessage_deliver_spec (st : NodeState) (request : GossipMessage)
    (t : ℚ) :
    (request.sender_id = st.host →
      (sendMessage st request t).state.received_message_ids =
          insert request.message st.received_message_ids
      ∧ (sendMessage st request t).event.event_type = .initiate
      ∧ (sendMessage st request t).fanout =
          some ⟨request.message, request.sender_id, 0⟩
      ∧ (sendMessage st request t).ack =
          ⟨"Done propagate! " ++ st.host ++ " received: \x27" ++
            request.message ++ "\x27"⟩)
    ∧ (request.sender_id ≠ st.host →
        request.message ∈ st.received_message_ids →
      (sendMessage st request t).event.event_type = .duplicate
      ∧ (sendMessage st request t).fanout = none
      ∧ (sendMessage st request t).ack =
          ⟨"Duplicate message ignored by (" ++ st.host ++ ")"⟩)
    ∧ (request.sender_id ≠ st.host →
        request.message ∉ st.received_message_ids →
      (sendMessage st request t).state.received_message_ids =
          insert request.message st.received_message_ids
      ∧ (sendMessage st request t).event.propagation_time =
          some ((t - request.timestamp) / 1000000)
      ∧ (sendMessage st request t).event.event_type = .received
      ∧ (sendMessage st request t).event.round_count = request.round_count
      ∧ (sendMessage st request t).fanout =
          some ⟨request.message, request.sender_id, request.round_count + 1⟩
      ∧ (sendMessage st request t).ack =
          ⟨st.host ++ " received: \x27" ++ request.message ++ "\x27"⟩) := by
  refine ⟨fun h1 => ?_, fun h1 h2 => ?_, fun h1 h2 => ?_⟩
  · simp [sendMessage, h1, logEvent]
  · simp [sendMessage, h1, h2, logEvent]
  · simp [sendMessage, h1, h2, logEvent]

/-- Concrete instance of `sendMessage_deliver_spec`: the originator branch
and the duplicate branch evaluated on the fixture node. -/
theorem sendMessage_deliver_spec_witness :
    ((sendMessage exNode exSelfReq 5).event.event_type = .initiate
      ∧ (sendMessage exNode exSelfReq 5).fanout =
          some ⟨"m1", "10.0.0.1", 0⟩)
    ∧ ((sendMessage exNodeSeen exPeerReq 5).event.event_type = .duplicate
      ∧ (sendMessage exNodeSeen exPeerReq 5).fanout = none) := by
  have h1 := (sendMessage_deliver_spec exNode exSelfReq 5).1 (by decide)
  have h2 := (sendMessage_deliver_spec exNodeSeen exPeerReq 5).2.1
    (by decide) (by decide)
  exact ⟨⟨h1.2.1, h1.2.2.1⟩, ⟨h2.1, h2.2.1⟩⟩

/-- Claim C10: the duplicate branch is a pure frame: the node state (dedup
set, neighbor list, identity) is returned unchanged, no fan-out task is
created, and only the duplicate acknowledgment and log event are
produced. -/
theorem duplicate_frame_spec (st : NodeState) (request : GossipMessage)
    (t : ℚ) (h1 : request.sender_id ≠ st.host)
    (h2 : request.message ∈ st.received_message_ids) :
    (sendMessage st request t).state = st
    ∧ (sendMessage st request t).fanout = none
    ∧ (sendMessage st request t).ack =
        ⟨"Duplicate message ignored by (" ++ st.host ++ ")"⟩
    ∧ (sendMessage st request t).event.event_type = .duplicate := by
  simp [sendMessage, h1, h2, logEvent]

/-- Concrete instance of `duplicate_frame_spec` on the fixture node. -/
theorem duplicate_frame_spec_witness :
    (sendMessage exNodeSeen exPeerReq 7).state = exNodeSeen
    ∧ (sendMessage exNodeSeen exPeerReq 7).fanout = none := by
  have h := duplicate_frame_spec exNodeSeen exPeerReq 7 (by decide) (by decide)
  exact ⟨h.1, h.2.1⟩

/-- Claim C2 counterexample: the originator branch of `SendMessage` is
checked before the dedup lookup, so a self-addressed delivery of an id the
node has already seen fans out again inside the same epoch.  Here `m1`
arrives from peer `10.0.0.2` and is then re-sent self-addressed: the second
call logs `initiate` (not `duplicate`) and schedules fan-out, refuting
"every subsequent call for that id logs a duplicate event and triggers no
fan-out". -/
theorem dedup_claim_counterexample :
    ¬ (∀ x ∈ (runCalls exNode [(exPeerReq, 3), (exSelfReq, 9)]).2.tail,
        x.event.event_type = .duplicate ∧ x.fanout = none) := by
  decide

/-- Claim C2 (amended): within one epoch, across any sequence of
`SendMessage` calls for one id in which every call after the first comes
from a peer (`sender_addr ≠ self_addr`), exactly the first call logs
`initiate` or `received` and triggers fan-out, and every subsequent call
logs `duplicate` and triggers no fan-out.  (The restriction on the later
calls is forced by `dedup_claim_counterexample`: a later self-addressed
call re-initiates.) -/
theorem dedup_per_epoch (st : NodeState) (id : String)
    (h0 : id ∉ st.received_message_ids)
    (first : GossipMessage × ℚ) (rest : List (GossipMessage × ℚ))
    (hfirst : first.1.message = id)
    (hrest : ∀ c ∈ rest, c.1.message = id ∧ c.1.sender_id ≠ st.host) :
    ∃ r rs, (runCalls st (first :: rest)).2 = r :: rs
      ∧ (r.event.event_type = .initiate ∨ r.event.event_type = .received)
      ∧ r.fanout.isSome = true
      ∧ ∀ x ∈ rs, x.event.event_type = .duplicate ∧ x.fanout = none := by
  have hres : (runCalls st (first :: rest)).2 =
      sendMessage st first.1 first.2 ::
        (runCalls (sendMessage st first.1 first.2).state rest).2 := by
    simp [runCalls]
  refine ⟨_, _, hres, ?_, ?_, ?_⟩
  · by_cases h1 : first.1.sender_id = st.host
    · left; simp [sendMessage, h1, logEvent]
    · right; simp [sendMessage, h1, hfirst ▸ h0, logEvent]
  · by_cases h1 : first.1.sender_id = st.host
    · simp [sendMessage, h1]
    · simp [sendMessage, h1, hfirst ▸ h0]
  · have hid : id ∈ (sendMessage st first.1 first.2).state.received_message_ids :=
      hfirst ▸ sendMessage_marks st first.1 first.2
    have hhost := sendMessage_host st first.1 first.2
    exact runCalls_duplicates id rest _ hid
      (fun c hc => ⟨(hrest c hc).1, hhost ▸ (hrest c hc).2⟩)

/-- Concrete instance of `dedup_per_epoch`: `m1` delivered from
`10.0.0.2` and then twice more from peers `10.0.0.3` and `10.0.0.2`. -/
theorem dedup_per_epoch_witness :
    ∃ r rs, (runCalls exNode [(exPeerReq, 3),
        (⟨"m1", "10.0.0.3", 4, 20, 1⟩, 6), (exPeerReq, 8)]).2 = r :: rs
      ∧ (r.event.event_type = .initiate ∨ r.event.event_type = .received)
      ∧ r.fanout.isSome = true
      ∧ ∀ x ∈ rs, x.event.event_type = .duplicate ∧ x.fanout = none :=
  dedup_per_epoch exNode "m1" (by decide) (exPeerReq, 3)
    [(⟨"m1", "10.0.0.3", 4, 20, 1⟩, 6), (exPeerReq, 8)] (by decide)
    (by decide)

/-! ### Claims about `UpdateNeighbors` -/

/-- Claim C3 (the code contradicts it): `UpdateNeighbors` installs the new
in-memory table and clears the dedup set *before* attempting the durable
write, so when the write fails the call returns an error `Acknowledgment`
but the new table stays installed and the tracker stays cleared — the
previously installed table is not restored.  Evaluated at the failing
input: node with table `[(10.0.0.2, 10)]` and seen set `{m1}`, update to
`[(10.0.0.3, 7)]` with a failing durable store. -/
theorem updateNeighbors_dbFail_mutates :
    (updateNeighbors exNodeSeen [("10.0.0.2", 10)] [("10.0.0.3", 7)]
        (.fail "disk I/O error")).2.2 = ⟨"Error: disk I/O error"⟩
    ∧ (updateNeighbors exNodeSeen [("10.0.0.2", 10)] [("10.0.0.3", 7)]
        (.fail "disk I/O error")).1.susceptible_nodes = [("10.0.0.3", 7)]
    ∧ (updateNeighbors exNodeSeen [("10.0.0.2", 10)] [("10.0.0.3", 7)]
        (.fail "disk I/O error")).1.susceptible_nodes ≠
        exNodeSeen.susceptible_nodes
    ∧ (updateNeighbors exNodeSeen [("10.0.0.2", 10)] [("10.0.0.3", 7)]
        (.fail "disk I/O error")).1.received_message_ids = ∅
    ∧ exNodeSeen.received_message_ids ≠ ∅ := by
  decide

/-- Claim C5 counterexample, refuting both halves of the claim at concrete
inputs.  Duplicate peer addresses: the call is answered with an error
`Acknowledgment` (the durable store's primary-key constraint fires), but
the in-memory Neighbor Table does not stay unchanged — it has already been
replaced by the malformed list.  Invalid weight (negative, outside the
spec's non-negative domain): the call is not rejected at all — no weight
validation exists, the success `Acknowledgment` is returned and the
invalid-weight list is installed. -/
theorem updateNeighbors_malformed_counterexample :
    ((updateNeighbors exNode [("10.0.0.2", 10)]
        [("10.0.0.9", 1), ("10.0.0.9", 2)] .ok).2.2 =
      ⟨"Error: UNIQUE constraint failed: NEIGHBORS.pod_ip"⟩
    ∧ (updateNeighbors exNode [("10.0.0.2", 10)]
        [("10.0.0.9", 1), ("10.0.0.9", 2)] .ok).1.susceptible_nodes ≠
      exNode.susceptible_nodes)
    ∧ ((updateNeighbors exNode [("10.0.0.2", 10)]
        [("10.0.0.9", -5)] .ok).2.2 =
      ⟨"Neighbors list and message cache have been updated."⟩
    ∧ (updateNeighbors exNode [("10.0.0.2", 10)]
        [("10.0.0.9", -5)] .ok).1.susceptible_nodes =
      [("10.0.0.9", -5)]
    ∧ (updateNeighbors exNode [("10.0.0.2", 10)]
        [("10.0.0.9", -5)] .ok).2.1 = [("10.0.0.9", -5)]) := by
  decide

/-- Claim C5 (amended): with an otherwise healthy durable store, a call
whose edge list carries a duplicate peer address is rejected with the
primary-key error `Acknowledgment` and the *durable* NEIGHBORS table is
left unchanged (the transaction rolls back), but the in-memory table has
already been replaced by the malformed list and the dedup set cleared;
a call whose edge list is malformed only by an invalid (negative) weight
is not rejected at all: it returns the success `Acknowledgment` and
installs the list in memory and in the durable store.  (Both departures
from the claim are forced by `updateNeighbors_malformed_counterexample`;
the healthy-store condition reflects that an environmental failure at
`sqlite3.connect` would surface its own error before the constraint is
ever checked.) -/
theorem updateNeighbors_malformed_spec (st : NodeState)
    (db edges : List (String × ℚ)) :
    (¬ (edges.map Prod.fst).Nodup →
      (updateNeighbors st db edges .ok).2.2 =
        ⟨"Error: UNIQUE constraint failed: NEIGHBORS.pod_ip"⟩
      ∧ (updateNeighbors st db edges .ok).2.1 = db
      ∧ (updateNeighbors st db edges .ok).1.susceptible_nodes = edges
      ∧ (updateNeighbors st db edges .ok).1.received_message_ids = ∅)
    ∧ ((edges.map Prod.fst).Nodup → (∃ e ∈ edges, e.2 < 0) →
      (updateNeighbors st db edges .ok).2.2 =
        ⟨"Neighbors list and message cache have been updated."⟩
      ∧ (updateNeighbors st db edges .ok).2.1 = edges
      ∧ (updateNeighbors st db edges .ok).1.susceptible_nodes = edges) := by
  constructor
  · intro hdup
    simp [updateNeighbors, dbWriteResult, hdup]
  · intro hnd _
    simp [updateNeighbors, dbWriteResult, hnd]

/-- Concrete instance of `updateNeighbors_malformed_spec`: the duplicate
list `[(10.0.0.9, 1), (10.0.0.9, 2)]` and the negative-weight list
`[(10.0.0.9, -5)]` against the fixture node. -/
theorem updateNeighbors_malformed_spec_witness :
    (updateNeighbors exNode [("10.0.0.2", 10)]
        [("10.0.0.9", 1), ("10.0.0.9", 2)] .ok).2.2 =
      ⟨"Error: UNIQUE constraint failed: NEIGHBORS.pod_ip"⟩
    ∧ (updateNeighbors exNode [("10.0.0.2", 10)]
        [("10.0.0.9", 1), ("10.0.0.9", 2)] .ok).2.1 = [("10.0.0.2", 10)]
    ∧ (updateNeighbors exNode [("10.0.0.2", 10)]
        [("10.0.0.9", 1), ("10.0.0.9", 2)] .ok).1.susceptible_nodes =
      [("10.0.0.9", 1), ("10.0.0.9", 2)]
    ∧ (updateNeighbors exNode [("10.0.0.2", 10)]
        [("10.0.0.9", -5)] .ok).2.2 =
      ⟨"Neighbors list and message cache have been updated."⟩
    ∧ (updateNeighbors exNode [("10.0.0.2", 10)]
        [("10.0.0.9", -5)] .ok).2.1 = [("10.0.0.9", -5)] := by
  have h1 := (updateNeighbors_malformed_spec exNode [("10.0.0.2", 10)]
    [("10.0.0.9", 1), ("10.0.0.9", 2)]).1 (by decide)
  have h2 := (updateNeighbors_malformed_spec exNode [("10.0.0.2", 10)]
    [("10.0.0.9", -5)]).2 (by decide)
    ⟨("10.0.0.9", -5), by decide, by norm_num⟩
  exact ⟨h1.1, h1.2.1, h1.2.2.1, h2.1, h2.2.1⟩

/-- Claim C6: after a successful `UpdateNeighbors` (no duplicate keys and a
healthy durable store), a previously seen id is treated as unseen again —
the next delivery of it from a peer takes the `received` path: it is marked
seen, logged as `received`, and fan-out is scheduled at the incoming round
plus one. -/
theorem epoch_reset_spec (st : NodeState) (db edges : List (String × ℚ))
    (ext : DbOutcome) (hok : dbWriteResult edges ext = .ok)
    (request : GossipMessage) (t : ℚ)
    (hseen : request.message ∈ st.received_message_ids)
    (hsender : request.sender_id ≠ st.host) :
    (updateNeighbors st db edges ext).2.2 =
      ⟨"Neighbors list and message cache have been updated."⟩
    ∧ (sendMessage (updateNeighbors st db edges ext).1 request t).event.event_type
        = .received
    ∧ (sendMessage (updateNeighbors st db edges ext).1 request t).fanout =
        some ⟨request.message, request.sender_id, request.round_count + 1⟩
    ∧ request.message ∈
        (sendMessage (updateNeighbors st db edges ext).1 request t).state.received_message_ids := by
  have hval : updateNeighbors st db edges ext =
      ({ st with susceptible_nodes := edges, received_message_ids := ∅ },
        edges, ⟨"Neighbors list and message cache have been updated."⟩) := by
    simp [updateNeighbors, hok]
  rw [hval]
  refine ⟨rfl, ?_, ?_, ?_⟩
  · simp [sendMessage, hsender, logEvent]
  · simp [sendMessage, hsender]
  · simp [sendMessage, hsender]

/-- Concrete instance of `epoch_reset_spec`: node that has seen `m1` gets a
new topology, then `m1` from `10.0.0.2` is received afresh. -/
theorem epoch_reset_spec_witness :
    (updateNeighbors exNodeSeen [("10.0.0.2", 10)] [("10.0.0.4", 3)] .ok).2.2 =
      ⟨"Neighbors list and message cache have been updated."⟩
    ∧ (sendMessage (updateNeighbors exNodeSeen [("10.0.0.2", 10)]
        [("10.0.0.4", 3)] .ok).1 exPeerReq 11).event.event_type = .received
    ∧ (sendMessage (updateNeighbors exNodeSeen [("10.0.0.2", 10)]
        [("10.0.0.4", 3)] .ok).1 exPeerReq 11).fanout =
        some ⟨"m1", "10.0.0.2", 1⟩
    ∧ "m1" ∈ (sendMessage (updateNeighbors exNodeSeen [("10.0.0.2", 10)]
        [("10.0.0.4", 3)] .ok).1 exPeerReq 11).state.received_message_ids :=
  epoch_reset_spec exNodeSeen [("10.0.0.2", 10)] [("10.0.0.4", 3)] .ok
    (by decide) exPeerReq 11 (by decide) (by decide)

/-! ### Claims about the fan-out targets -/

/-- Claim C4: when a fresh message arrives from peer `p`, fan-out is
scheduled with `p` as the excluded sender and its target set is exactly the
current neighbor list minus the edges to `p`; when the message is
self-originated, fan-out is scheduled with the node's own address excluded,
which (as long as the node is not listed as its own neighbor) targets all
of the neighbor list. -/
theorem fanout_targets_spec (st : NodeState) (request : GossipMessage)
    (t : ℚ) :
    (request.sender_id ≠ st.host →
        request.message ∉ st.received_message_ids →
      (sendMessage st request t).fanout =
          some ⟨request.message, request.sender_id, request.round_count + 1⟩
      ∧ ∀ e, e ∈ gossipTargets st.susceptible_nodes request.sender_id ↔
          (e ∈ st.susceptible_nodes ∧ e.1 ≠ request.sender_id))
    ∧ (request.sender_id = st.host →
      (sendMessage st request t).fanout =
          some ⟨request.message, request.sender_id, 0⟩
      ∧ (st.host ∉ st.susceptible_nodes.map Prod.fst →
          gossipTargets st.susceptible_nodes request.sender_id =
            st.susceptible_nodes)) := by
  constructor
  · intro h1 h2
    refine ⟨by simp [sendMessage, h1, h2], fun e => ?_⟩
    simp [gossipTargets, List.mem_filter]
  · intro h1
    refine ⟨by simp [sendMessage, h1], fun hself => ?_⟩
    rw [gossipTargets, List.filter_eq_self]
    intro e he
    simp only [decide_eq_true_eq]
    intro heq
    exact hself (List.mem_map.mpr ⟨e, he, heq.symm ▸ h1.symm ▸ rfl⟩)

/-- Concrete instance of `fanout_targets_spec` on the fixture node: a
message from `10.0.0.2` excludes exactly that peer; a self-originated
message targets the whole neighbor list. -/
theorem fanout_targets_spec_witness :
    (sendMessage exNode exPeerReq 3).fanout = some ⟨"m1", "10.0.0.2", 1⟩
    ∧ (("10.0.0.3", (20 : ℚ)) ∈
          gossipTargets exNode.susceptible_nodes "10.0.0.2" ↔
        (("10.0.0.3", (20 : ℚ)) ∈ exNode.susceptible_nodes
          ∧ "10.0.0.3" ≠ "10.0.0.2"))
    ∧ gossipTargets exNode.susceptible_nodes "10.0.0.1" =
        exNode.susceptible_nodes := by
  have h1 := (fanout_targets_spec exNode exPeerReq 3).1 (by decide) (by decide)
  have h2 := (fanout_targets_spec exNode exSelfReq 3).2 rfl
  exact ⟨h1.1, h1.2 ("10.0.0.3", 20), h2.2 (by decide)⟩

/-! ### Claims about the relay engine -/

/-- Processed slots are conserved: the semaphore counter plus the tasks
currently holding a slot always add up to the configured capacity. -/
theorem engine_slot_invariant (s : EngineState) (h : EngineReachable s) :
    s.available + s.delaying + s.calling = MAX_CONCURRENT_SENDS := by
  induction h with
  | refl => rfl
  | tail _ hstep ih => cases hstep <;> dsimp at ih ⊢ <;> omega

/-- Claim C7: in every reachable relay-engine state, the number of tasks
holding a semaphore slot (sleeping through their simulated latency or with
an outbound call in flight) — and in particular the number of in-flight
outbound relay calls — never exceeds `MAX_CONCURRENT_SENDS = 125`. -/
theorem relay_concurrency_bound (s : EngineState) (h : EngineReachable s) :
    s.delaying + s.calling ≤ MAX_CONCURRENT_SENDS
    ∧ s.calling ≤ MAX_CONCURRENT_SENDS := by
  have hinv := engine_slot_invariant s h
  omega

/-- Concrete instance of `relay_concurrency_bound` at the reachable state
in which one spawned task has acquired a slot and started its outbound
call. -/
theorem relay_concurrency_bound_witness :
    (⟨124, 0, 0, 1, 0⟩ : EngineState).delaying +
        (⟨124, 0, 0, 1, 0⟩ : EngineState).calling ≤ MAX_CONCURRENT_SENDS
    ∧ (⟨124, 0, 0, 1, 0⟩ : EngineState).calling ≤ MAX_CONCURRENT_SENDS :=
  relay_concurrency_bound ⟨124, 0, 0, 1, 0⟩
    (Relation.ReflTransGen.tail
      (Relation.ReflTransGen.tail
        (Relation.ReflTransGen.tail Relation.ReflTransGen.refl
          (EngineStep.spawn engineInit))
        (EngineStep.acquire ⟨125, 1, 0, 0, 0⟩ (by decide) (by decide)))
      (EngineStep.beginCall ⟨124, 0, 1, 0, 0⟩ (by decide)))

/-- Claim C8 counterexample: for the edge weight `10.5`, the relay task
does not wait `10.5` milliseconds — `asyncio.sleep(int(peer_weight)/1000)`
truncates the weight, sleeping 10 ms — and the `sent_at` it transmits is
not the time of the send: `send_timestamp` is captured before the semaphore
wait and the delay, so it differs from the moment the outbound call is
made. -/
theorem relay_task_claim_counterexample :
    (sendGossipToPeer "10.0.0.1" "m1" "10.0.0.2" (21 / 2) 3 1000 0).sleptMs ≠
        21 / 2
    ∧ (sendGossipToPeer "10.0.0.1" "m1" "10.0.0.2" (21 / 2) 3 1000 0).sent.timestamp ≠
        (sendGossipToPeer "10.0.0.1" "m1" "10.0.0.2" (21 / 2) 3 1000 0).sendTime := by
  constructor <;> norm_num [sendGossipToPeer, pyInt]

/-- Claim C8 (amended): a relay task over edge `(peer, weight)` at round
`r` acquires a slot, waits `int(weight)` milliseconds — the weight
truncated toward zero, so within one millisecond below the nominal weight —
and then issues the outbound `SendMessage` carrying `sender_id` equal to
this node's address, `sent_at` equal to the timestamp captured when the
task started (before the semaphore wait and the delay, not the moment of
the send), `latency_ms` equal to the untruncated weight, and
`round_count = r`.  (The truncated wait and the early `sent_at` are forced
by `relay_task_claim_counterexample`.) -/
theorem relay_task_spec (host message peer_ip : String) (peer_weight : ℚ)
    (round_count : Nat) (taskStart slotWaitNs : ℚ)
    (hw : 0 ≤ peer_weight) :
    (sendGossipToPeer host message peer_ip peer_weight round_count taskStart
        slotWaitNs).sent =
      ⟨message, host, taskStart, peer_weight, round_count⟩
    ∧ (sendGossipToPeer host message peer_ip peer_weight round_count
        taskStart slotWaitNs).sleptMs = ((pyInt peer_weight : ℤ) : ℚ)
    ∧ peer_weight - 1 < (sendGossipToPeer host message peer_ip peer_weight
        round_count taskStart slotWaitNs).sleptMs
    ∧ (sendGossipToPeer host message peer_ip peer_weight round_count
        taskStart slotWaitNs).sleptMs ≤ peer_weight
    ∧ (sendGossipToPeer host message peer_ip peer_weight round_count
        taskStart slotWaitNs).sendTime =
      taskStart + slotWaitNs +
        (sendGossipToPeer host message peer_ip peer_weight round_count
          taskStart slotWaitNs).sleptMs * 1000000 := by
  refine ⟨rfl, rfl, ?_, ?_, rfl⟩
  · show peer_weight - 1 < ((pyInt peer_weight : ℤ) : ℚ)
    rw [pyInt, if_pos hw]
    exact_mod_cast Int.sub_one_lt_floor peer_weight
  · show ((pyInt peer_weight : ℤ) : ℚ) ≤ peer_weight
    rw [pyInt, if_pos hw]
    exact_mod_cast Int.floor_le peer_weight

/-- Concrete instance of `relay_task_spec` at weight `10.5`. -/
theorem relay_task_spec_witness :
    (sendGossipToPeer "10.0.0.1" "m1" "10.0.0.2" (21 / 2) 3 1000 500).sent.sender_id =
        "10.0.0.1"
    ∧ (sendGossipToPeer "10.0.0.1" "m1" "10.0.0.2" (21 / 2) 3 1000 500).sent.timestamp =
        1000
    ∧ 21 / 2 - 1 < (sendGossipToPeer "10.0.0.1" "m1" "10.0.0.2" (21 / 2) 3
        1000 500).sleptMs
    ∧ (sendGossipToPeer "10.0.0.1" "m1" "10.0.0.2" (21 / 2) 3 1000 500).sleptMs ≤
        21 / 2 := by
  have h := relay_task_spec "10.0.0.1" "m1" "10.0.0.2" (21 / 2) 3 1000 500
    (by norm_num)
  exact ⟨by rw [h.1], by rw [h.1], h.2.2.1, h.2.2.2.1⟩

/-! ### Claims about failure containment -/

/-- Whether an embedded Python computation returned without raising. -/
def returnsNormally {α β : Type} : Except α β → Bool
  | .ok _ => true
  | .error _ => false

/-- Claim C9: every relay-task failure is contained.  A relay task returns
normally whatever the outcome of its outbound call (the exception is
converted into a log line); `gossip_message` returns normally for any set
of per-peer outcomes (`gather` collects results instead of re-raising);
changing one peer's outcome — even to an exception — leaves every sibling
task's result unchanged; and both RPC handlers return an `Acknowledgment`
for every input. -/
theorem relay_failures_contained :
    (∀ (message peer_ip : String) (outcome : CallOutcome),
        returnsNormally (relayTaskRun message peer_ip outcome) = true)
    ∧ (∀ (susceptible : List (String × ℚ)) (sender_id message : String)
        (outcomes : String → CallOutcome),
        returnsNormally
          (gossipMessageRun susceptible sender_id message outcomes) = true)
    ∧ (∀ (message : String) (f : String → CallOutcome) (p : String)
        (o : CallOutcome) (q : String), q ≠ p →
        relayTaskRun message q (Function.update f p o q) =
          relayTaskRun message q (f q))
    ∧ (∀ (st : NodeState) (request : GossipMessage) (t : ℚ),
        (sendMessage st request t).ack =
          ⟨(sendMessage st request t).ack.details⟩)
    ∧ (∀ (st : NodeState) (db edges : List (String × ℚ)) (ext : DbOutcome),
        (updateNeighbors st db edges ext).2.2 =
          ⟨(updateNeighbors st db edges ext).2.2.details⟩) := by
  refine ⟨fun m p o => ?_, fun s sid m os => rfl, fun m f p o q hq => ?_,
    fun st r t => rfl, fun st db e ext => rfl⟩
  · cases o <;> rfl
  · rw [Function.update_noteq hq]

/-- Concrete instance of `relay_failures_contained`: a connection failure
to `10.0.0.2` is swallowed by its own task and does not change the result
of the sibling task for `10.0.0.3`. -/
theorem relay_failures_contained_witness :
    returnsNormally
      (relayTaskRun "m1" "10.0.0.2" (.raise "connection refused")) = true
    ∧ relayTaskRun "m1" "10.0.0.3"
        (Function.update (fun _ => CallOutcome.success) "10.0.0.2"
          (.raise "connection refused") "10.0.0.3") =
      relayTaskRun "m1" "10.0.0.3" CallOutcome.success := by
  have h := relay_failures_contained
  exact ⟨h.1 "m1" "10.0.0.2" (.raise "connection refused"),
    h.2.2.1 "m1" (fun _ => CallOutcome.success) "10.0.0.2"
      (.raise "connection refused") "10.0.0.3" (by decide)⟩

end AdaptiveBC
